import Mathlib

/-!
Verification of the `eduagent` tutoring-agent repository.

This file gives a shallow embedding, in Lean 4, of the parts of the Python
source relevant to the frozen claims:

* `src/tools/base.py` — `Tool`, `ToolRegistry`, the error taxonomy
  (`ToolRegistryError` / `ToolInvocationError` / `ToolNotFoundError`);
* `src/tools/mistakes_store.py`, `src/tools/mistakes_search.py`,
  `src/tools/user_name.py` — the three concrete tools and the shared
  in-process mistake store;
* `src/agent/agent.py` — `AgentConversation` and `EducationalAgent`
  (`ask`, `run`, `_run_loop`, `_prepare_anthropic_messages`,
  `_normalize_content_blocks`, `_parse_assistant_content`,
  `_handle_tool_use`);
* `src/agent/prompt.py` — `SYSTEM_PROMPT` and `USER_WRAPPER`.

Modelling conventions:

* JSON-like Python values (tool arguments, content blocks, schemas) are an
  inductive `JVal`; a Python `dict` is an association list `JObj` (Python
  dicts preserve insertion order, so an ordered list is faithful).
* Python exceptions are `Except`/explicit error sums.  An exception raised
  by a tool body, an `AttributeError` from a bare `getattr`, and the
  registry's own error classes are distinguished by the `ToolErr` /
  `LoopErr` constructors, mirroring the Python class hierarchy in which
  `ToolInvocationError` and `ToolNotFoundError` are *siblings*.
* The process-global list `_MISTAKE_MEMORY` becomes an explicit state
  `MemState` threaded through every tool invocation and the agent loop.
* The remote model (`self._client.messages.create`) is a parameter
  `Backend`: a function from the prepared request (system prompt and
  normalized messages, exactly what the code sends) to the response
  content, a list of attribute-style SDK blocks (`ABlock`).
* pydantic argument validation is modelled per concrete schema class;
  validation messages are concise stand-ins for pydantic's prose (their
  exact wording is library behaviour, not repository source). pydantic's
  lax-mode coercions (numeric strings to int, etc.) are not modelled:
  arguments carry the canonical JSON types the backend produces.
-/

namespace EduAgent

/-! ## JSON-like Python values -/

/-- A JSON-like Python value: `None`, `bool`, `int`, `str`, `list`, `dict`. -/
inductive JVal where
  | null
  | bool (b : Bool)
  | int (n : Int)
  | str (s : String)
  | arr (xs : List JVal)
  | obj (kvs : List (String × JVal))

/-- A Python `dict` with string keys, in insertion order. -/
abbrev JObj := List (String × JVal)

/-- Python `d.get(k)` / `d[k]` lookup on a dict. -/
def jlookup (d : JObj) (k : String) : Option JVal :=
  match d with
  | [] => none
  | (k', v) :: rest => if k' = k then some v else jlookup rest k

/-- Python `repr` of a string (single quotes; escaping of special
characters inside is not modelled — no claim exercises it). -/
def pyReprOfString (s : String) : String := "'" ++ s ++ "'"

/-- ASCII lower-casing of one character: Python `str.lower` restricted to
the ASCII range (the repository's topics are compared case-insensitively;
non-ASCII case mapping is not exercised by any claim). -/
def charLower (c : Char) : Char :=
  if 'A' ≤ c ∧ c ≤ 'Z' then Char.ofNat (c.toNat + 32) else c

/-- Python `str.lower`. -/
def strLower (s : String) : String := ⟨s.data.map charLower⟩

/-- The characters Python `str.strip()` removes by default. -/
def isPyWs (c : Char) : Bool :=
  c = ' ' || c = '\t' || c = '\n' || c = '\r' || c = '\x0b' || c = '\x0c'

/-- Python `str.strip()`: drop leading and trailing whitespace. -/
def strStrip (s : String) : String :=
  ⟨((s.data.dropWhile isPyWs).reverse.dropWhile isPyWs).reverse⟩

mutual

/-- Python `repr` of a JSON-like value (used by `str(content)` fallbacks),
with `pyReprSeq` and `pyReprKvs` rendering comma-separated element lists. -/
def pyReprJVal : JVal → String
  | .null => "None"
  | .bool true => "True"
  | .bool false => "False"
  | .int n => toString n
  | .str s => pyReprOfString s
  | .arr xs => "[" ++ pyReprSeq xs ++ "]"
  | .obj kvs => "\x7b" ++ pyReprKvs kvs ++ "\x7d"

def pyReprSeq : List JVal → String
  | [] => ""
  | [x] => pyReprJVal x
  | x :: y :: rest => pyReprJVal x ++ ", " ++ pyReprSeq (y :: rest)

def pyReprKvs : List (String × JVal) → String
  | [] => ""
  | [(k, v)] => pyReprOfString k ++ ": " ++ pyReprJVal v
  | (k, v) :: p :: rest =>
      pyReprOfString k ++ ": " ++ pyReprJVal v ++ ", " ++ pyReprKvs (p :: rest)

end

mutual

/-- Python `json.dumps` with default separators `", "` / `": "`, as used by
`Tool.invoke` in `src/tools/base.py` to serialize non-string results. -/
def jsonDumps : JVal → String
  | .null => "null"
  | .bool true => "true"
  | .bool false => "false"
  | .int n => toString n
  | .str s => "\"" ++ s ++ "\""
  | .arr xs => "[" ++ jsonDumpsSeq xs ++ "]"
  | .obj kvs => "\x7b" ++ jsonDumpsKvs kvs ++ "\x7d"

def jsonDumpsSeq : List JVal → String
  | [] => ""
  | [x] => jsonDumps x
  | x :: y :: rest => jsonDumps x ++ ", " ++ jsonDumpsSeq (y :: rest)

def jsonDumpsKvs : List (String × JVal) → String
  | [] => ""
  | [(k, v)] => "\"" ++ k ++ "\": " ++ jsonDumps v
  | (k, v) :: p :: rest =>
      "\"" ++ k ++ "\": " ++ jsonDumps v ++ ", " ++ jsonDumpsKvs (p :: rest)

end

/-! ## Mistake store (`src/tools/mistakes_store.py`) -/

/-- The `MistakeRecord` dataclass. -/
structure MistakeRecord where
  topic : String
  detail : String
deriving Repr, DecidableEq

/-- The process-global `_MISTAKE_MEMORY` list, made an explicit state. -/
abbrev MemState := List MistakeRecord

/-! ## Tool error taxonomy (`src/tools/base.py`)

In the source, `ToolInvocationError` and `ToolNotFoundError` both extend
`ToolRegistryError` but neither extends the other.  `ToolErr.exec` stands
for any *other* exception escaping a tool body (`Tool.invoke` does not
catch exceptions raised by `run`). -/

inductive ToolErr where
  | invocation (msg : String)
  | notFound (msg : String)
  | exec (msg : String)
deriving Repr, DecidableEq

/-! ## Tools and the registry -/

/-- One tool: `name`, `description`, the pydantic `args_schema` reflected as
its JSON schema (`model_json_schema()`), the list of required field names
as declared on the pydantic class (fields with no default), the validation
function (`model_validate` followed by `model_dump`), and the body
(`run`), which may touch the shared mistake store and may raise. -/
structure MTool where
  name : String
  description : String
  inputSchema : JObj
  declaredRequired : List String
  validate : JObj → Except String JObj
  run : JObj → MemState → Except String (MemState × JVal)

/-- Models `Tool.invoke`: validate, re-raising `ValidationError` as
`ToolInvocationError`; run the body; return string results unchanged and
`json.dumps` anything else. -/
def serializeResult : JVal → String
  | .str s => s
  | v => jsonDumps v

def MTool.invoke (t : MTool) (args : JObj) (st : MemState) :
    Except ToolErr (MemState × String) :=
  match t.validate args with
  | .error m => .error (.invocation m)
  | .ok parsed =>
    match t.run parsed st with
    | .error m => .error (.exec m)
    | .ok (st', v) => .ok (st', serializeResult v)

/-- The `ToolRegistry` class: a name-keyed, insertion-ordered dict of tools. -/
structure ToolRegistry where
  tools : List (String × MTool)

/-- Models `ToolRegistry.register`: insert or overwrite by name (`dict` update:
an existing key keeps its position, a new key is appended). -/
def registerTool (reg : ToolRegistry) (t : MTool) : ToolRegistry :=
  if reg.tools.any (fun p => p.1 = t.name) then
    ⟨reg.tools.map (fun p => if p.1 = t.name then (t.name, t) else p)⟩
  else
    ⟨reg.tools ++ [(t.name, t)]⟩

/-- Models `ToolRegistry.__init__` with an initial tool sequence. -/
def buildRegistry (ts : List MTool) : ToolRegistry :=
  ts.foldl registerTool ⟨[]⟩

/-- Models `ToolRegistry.get`: raises `ToolNotFoundError` on a missing name. -/
def ToolRegistry.get (reg : ToolRegistry) (name : String) :
    Except ToolErr MTool :=
  match reg.tools.lookup name with
  | some t => .ok t
  | none => .error (.notFound ("Tool '" ++ name ++ "' is not registered."))

/-- Models `Tool.schema`: the wire-shape entry sent to the backend. -/
def schemaOf (t : MTool) : JObj :=
  [("name", .str t.name),
   ("description", .str t.description),
   ("input_schema", .obj t.inputSchema)]

/-- Models `ToolRegistry.as_anthropic_tools`. -/
def ToolRegistry.asAnthropicTools (reg : ToolRegistry) : List JObj :=
  reg.tools.map (fun p => schemaOf p.2)

/-- Models `ToolRegistry.invoke`. -/
def ToolRegistry.invoke (reg : ToolRegistry) (name : String) (args : JObj)
    (st : MemState) : Except ToolErr (MemState × String) :=
  match reg.get name with
  | .error e => .error e
  | .ok t => t.invoke args st

/-! ## pydantic validation for the three concrete schemas

`requireStr` models a required `str` field; `optionalStr` an
`Optional[str] = None` field; `boundedIntField` an `int` field with
`ge`/`le` bounds and a default. -/

def requireStr (args : JObj) (field : String) : Except String String :=
  match jlookup args field with
  | none => .error (field ++ ": Field required")
  | some (.str s) => .ok s
  | some _ => .error (field ++ ": Input should be a valid string")

def optionalStr (args : JObj) (field : String) : Except String (Option String) :=
  match jlookup args field with
  | none => .ok none
  | some .null => .ok none
  | some (.str s) => .ok (some s)
  | some _ => .error (field ++ ": Input should be a valid string")

def boundedIntField (args : JObj) (field : String) (lo hi dflt : Int) :
    Except String Int :=
  match jlookup args field with
  | none => .ok dflt
  | some (.int n) =>
      if n < lo then
        .error (field ++ ": Input should be greater than or equal to " ++ toString lo)
      else if hi < n then
        .error (field ++ ": Input should be less than or equal to " ++ toString hi)
      else .ok n
  | some _ => .error (field ++ ": Input should be a valid integer")

/-! ## `mistakes_store` tool -/

/-- Validation for `MistakeStoreArgs`: `topic` and `detail`, both required strings. -/
def mistakeStoreValidate (args : JObj) : Except String JObj :=
  match requireStr args "topic" with
  | .error m => .error m
  | .ok t =>
    match requireStr args "detail" with
    | .error m => .error m
    | .ok d => .ok [("topic", .str t), ("detail", .str d)]

/-- Models `MistakesStoreTool.run`: append one record, confirm by topic. -/
def mistakesStoreRun (topic detail : String) (st : MemState) :
    MemState × String :=
  (st ++ [⟨topic, detail⟩], "Stored mistake for topic '" ++ topic ++ "'.")

/-- Glue from the validated/dumped kwargs dict to the typed body; the
mismatch branch models Python's `TypeError` for missing keyword
arguments, unreachable after validation. -/
def mistakesStoreToolRun (parsed : JObj) (st : MemState) :
    Except String (MemState × JVal) :=
  match jlookup parsed "topic", jlookup parsed "detail" with
  | some (.str t), some (.str d) =>
      let (st', msg) := mistakesStoreRun t d st
      .ok (st', .str msg)
  | _, _ => .error "TypeError: run() missing required keyword arguments"

/-- The JSON schema `MistakeStoreArgs.model_json_schema()`. -/
def mistakeStoreSchema : JObj :=
  [("properties", .obj
      [("topic", .obj
          [("description", .str "Subject area for the learner mistake."),
           ("title", .str "Topic"), ("type", .str "string")]),
       ("detail", .obj
          [("description", .str "Description of what went wrong."),
           ("title", .str "Detail"), ("type", .str "string")])]),
   ("required", .arr [.str "topic", .str "detail"]),
   ("title", .str "MistakeStoreArgs"),
   ("type", .str "object")]

def mistakesStoreTool : MTool where
  name := "mistakes_store"
  description :=
    "Log a repeated learner mistake after the same concept is missed twice. " ++
    "Provide `topic` with the concept name (e.g. 'present tense nosotros') and " ++
    "`detail` with a one sentence summary of the misconception."
  inputSchema := mistakeStoreSchema
  declaredRequired := ["topic", "detail"]
  validate := mistakeStoreValidate
  run := mistakesStoreToolRun

/-! ## `mistakes_search` tool -/

/-- Validation for `MistakeSearchArgs`: optional `topic`, `limit : int` in `1..20`,
default `5`.  `model_dump` of a parse yields both keys (an absent topic
dumps as `None`). -/
def mistakeSearchValidate (args : JObj) : Except String JObj :=
  match optionalStr args "topic" with
  | .error m => .error m
  | .ok t =>
    match boundedIntField args "limit" 1 20 5 with
    | .error m => .error m
    | .ok l =>
        .ok [("topic", match t with | none => JVal.null | some s => JVal.str s),
             ("limit", .int l)]

/-- The records the topic filter keeps (`mistakes_search.py` lines 30–34):
case-insensitive topic equality when a truthy topic is given, everything
otherwise.  Python's `if topic:` is falsy both for `None` and for the
empty string, so either yields the unfiltered list. -/
def searchHits (topic : Option String) (st : MemState) : MemState :=
  match topic with
  | some t =>
      if t = "" then st
      else st.filter (fun m => strLower m.topic = strLower t)
  | none => st

/-- Models `MistakesSearchTool.run`. -/
def mistakesSearchRun (topic : Option String) (limit : Int) (st : MemState) :
    String :=
  let lines := ((searchHits topic st).take limit.toNat).map
    (fun r => "- " ++ r.topic ++ ": " ++ r.detail)
  if lines.isEmpty then "No mistakes found."
  else String.intercalate "\n" lines

def mistakesSearchToolRun (parsed : JObj) (st : MemState) :
    Except String (MemState × JVal) :=
  match jlookup parsed "topic", jlookup parsed "limit" with
  | some tv, some (.int l) =>
      let topic : Option String := match tv with | .str s => some s | _ => none
      .ok (st, .str (mistakesSearchRun topic l st))
  | _, _ => .error "TypeError: run() missing required keyword arguments"

/-- The JSON schema `MistakeSearchArgs.model_json_schema()`. -/
def mistakeSearchSchema : JObj :=
  [("properties", .obj
      [("topic", .obj
          [("anyOf", .arr [.obj [("type", .str "string")],
                           .obj [("type", .str "null")]]),
           ("default", .null),
           ("description", .str "Optional topic filter. Return all mistakes if omitted."),
           ("title", .str "Topic")]),
       ("limit", .obj
          [("default", .int 5),
           ("description", .str "Maximum number of mistakes to return."),
           ("maximum", .int 20), ("minimum", .int 1),
           ("title", .str "Limit"), ("type", .str "integer")])]),
   ("title", .str "MistakeSearchArgs"),
   ("type", .str "object")]

def mistakesSearchTool : MTool where
  name := "mistakes_search"
  description :=
    "Search for similar concepts the user has made mistakes with in the past."
  inputSchema := mistakeSearchSchema
  declaredRequired := []
  validate := mistakeSearchValidate
  run := mistakesSearchToolRun

/-! ## `basic_user_info` tool (`src/tools/user_name.py`) -/

/-- The schema `_BasicUserInfoArgs` declares no fields; any argument dict validates
(pydantic ignores extra fields by default) and dumps to the empty dict. -/
def basicUserInfoValidate (_args : JObj) : Except String JObj := .ok []

def basicUserInfoRun (_parsed : JObj) (st : MemState) :
    Except String (MemState × JVal) :=
  .ok (st, .obj
    [("name", .str "Alicia"),
     ("location", .str "London, United Kingdom"),
     ("interests", .arr [.str "Knitting"]),
     ("preferred_conversation_style",
        .str "Warm, encouraging, and slightly informal."),
     ("time_spent_learning_hours", .int 360)])

/-- The JSON schema `_BasicUserInfoArgs.model_json_schema()`. -/
def basicUserInfoSchema : JObj :=
  [("description", .str "No arguments are required for retrieving learner profile information."),
   ("properties", .obj []),
   ("title", .str "_BasicUserInfoArgs"),
   ("type", .str "object")]

def basicUserInfoTool : MTool where
  name := "basic_user_info"
  description :=
    "Retrieve stored learner details to personalise the session. Returns the user's " ++
    "preferred name, location, interests, preferred conversation style, and the time " ++
    "they have already spent learning the language."
  inputSchema := basicUserInfoSchema
  declaredRequired := []
  validate := basicUserInfoValidate
  run := basicUserInfoRun

/-- The registry built at startup (`build_registry` in `main.py`) from the
profile tool, the store tool and the search tool. -/
def defaultRegistry : ToolRegistry :=
  buildRegistry [basicUserInfoTool, mistakesStoreTool, mistakesSearchTool]

/-! ## Prompts (`src/agent/prompt.py`) -/

def SYSTEM_PROMPT : String :=
  "You are a language-learning tutor agent.\n" ++
  "Your task is to aid the user in understanding their stated learning objective.\n" ++
  "\n" ++
  "Your goal is complete once these conditions are met: \n" ++
  "1. A succinct explanation of the concept has been introduced. \n" ++
  "2. The user passed a mini test covering the main concepts with unseen examples in new contexts.\n" ++
  "\n" ++
  "## Mini-test guidelines: \n" ++
  "- First ask if the user has any follow ups to the explanation. Only present the mini-test when ready.\n" ++
  "- The mini-test should be more compact and make it more visual by adding emojis when being incorrect and correct. \n" ++
  "- You should present 3 questions.\n" ++
  "- The user has passed once all questions have been answered correctly.\n" ++
  "- If a user fails a particular question, the next round (same number of questions), should be mainly focused on where they failed and get a mistake breakdown.\n" ++
  "\n" ++
  "## Tool guidelines\n" ++
  "Read the tool descriptions in order to decide how best to use them. \n" ++
  "\n" ++
  "You will be given a number of tools to personalise your teaching. These tools give you access to a number of persistent stores of important information about your user. You should use these to enrich your lessons by mixing in their results in order to guide curation of your explanations and questions for the quiz. \n" ++
  "\n" ++
  "Similarly, these tools allow you to save important information which should be based on your interaction with the user. This allows subsequent agents to use this important information when tailoring other lessons. \n" ++
  "\n" ++
  "- If the learner makes the same mistake twice in a session, you must call the `mistakes_store` tool before moving on. Pass the concept or skill name as `topic` and summarise the misconception in a single sentence as `detail`. Only state that you logged the mistake after the tool call succeeds.\n" ++
  "- Log repeated mistakes silently: never mention to the learner that you are saving or have saved their mistake; keep that interaction invisible to them.\n" ++
  "- Before composing any user-facing message, pause and reflect on whether each required tool has been used. Explicitly reason about: (1) Have you already called `mistakes_search` for this goal? (2) Have you already called `basic_user_info` to personalise the session? (3) Has every repeated mistake triggered a `mistakes_store` call? If any answer is \"no,\" call the tool(s) before replying.\n" ++
  "- Keep this reflection internal—never expose the checklist or the fact that you are reflecting to the learner.\n"

/-- Models `USER_WRAPPER.format(goal=...)`: the fixed instruction template with the
raw user input injected at its `goal` placeholder. -/
def userWrapperFormat (goal : String) : String :=
  "Learning objective:\n" ++ goal ++ "\n\n" ++
  "Always call the retrieval tools before generating explanations or quiz questions. \n" ++
  "Call the `mistakes_store` tool as soon as you detect a repeated mistake so that future tutors can review it.\n" ++
  "Before answering, double-check in your internal reasoning that you have used `mistakes_search` and `basic_user_info` for this session, and that any repeated mistake has been logged with `mistakes_store`.\n" ++
  "Return the final user-facing answer in clear text at the end.\n"

/-! ## Content blocks and messages (`src/agent/agent.py`)

`ABlock` is an attribute-style SDK object as probed by `getattr`: each
optional field is `none` when the attribute is absent (a bare
`getattr(block, attr)` on an absent attribute raises `AttributeError`,
modelled as an `Except.error`). `toolUseId` models the Python attribute
`tool_use_id`; `toDict` is `json.dumps(block.to_dict())` for blocks that
have a `to_dict` method; `reprStr` is `str(block)`. -/

structure ABlock where
  type : Option String
  text : Option String
  id : Option String
  name : Option String
  input : Option JObj
  toolUseId : Option String
  content : Option String
  toDict : Option String
  reprStr : String

/-- An SDK text block, as the backend produces it. -/
def ABlock.textBlk (t : String) : ABlock :=
  ⟨some "text", some t, none, none, none, none, none, none, "TextBlock"⟩

/-- An SDK tool-use block, as the backend produces it. -/
def ABlock.toolUseBlk (id name : String) (input : JObj) : ABlock :=
  ⟨some "tool_use", none, some id, some name, some input, none, none, none,
   "ToolUseBlock"⟩

/-- One element of a `content` list: either a plain Python `dict` or an
attribute-style object. -/
inductive PyBlock where
  | dict (d : JObj)
  | attr (a : ABlock)

/-- The `content` value of a message: a string, a list of blocks, or any
other Python object (kept only through its `str()` form). -/
inductive PyContent where
  | str (s : String)
  | list (bs : List PyBlock)
  | other (reprStr : String)

/-- Python `str(content)`.  A list reaches `str()` only when its normalization
kept no block, i.e. when it holds only skipped attribute-style blocks, so
the `dict` element repr delegates to `pyReprJVal`. -/
def pyBlockRepr : PyBlock → String
  | .dict d => pyReprJVal (.obj d)
  | .attr a => a.reprStr

def pyStr : PyContent → String
  | .str s => s
  | .other r => r
  | .list bs => "[" ++ String.intercalate ", " (bs.map pyBlockRepr) ++ "]"

/-- One entry of the `messages` list: `{"role": ..., "content": ...}`. -/
structure Msg where
  role : String
  content : PyContent

/-- The dict block `{"type": "text", "text": t}`. -/
def textBlock (t : String) : JObj :=
  [("type", .str "text"), ("text", .str t)]

/-- The dict block appended for a tool result. -/
def toolResultBlock (tuid : String) (result : String) : JObj :=
  [("type", .str "tool_result"), ("tool_use_id", .str tuid),
   ("content", .str result)]

/-! ## `_normalize_content_blocks` -/

/-- Normalization of a single block inside a list: dict blocks pass
through unchanged; attribute-style blocks are converted when their `type`
is `text` / `tool_use` / `tool_result` and skipped (`none`) otherwise.
The `tool_use` and `tool_result` branches read `id`, `name` and
`tool_use_id` with a bare `getattr`, so an absent attribute raises. -/
def normalizeBlock : PyBlock → Except String (Option JObj)
  | .dict d => .ok (some d)
  | .attr a =>
    if a.type = some "text" then
      .ok (some (textBlock (a.text.getD "")))
    else if a.type = some "tool_use" then
      match a.id, a.name with
      | some i, some n =>
          .ok (some [("type", .str "tool_use"), ("id", .str i),
                     ("name", .str n), ("input", .obj (a.input.getD []))])
      | _, _ => .error "AttributeError"
    else if a.type = some "tool_result" then
      match a.toolUseId with
      | some tuid =>
          .ok (some [("type", .str "tool_result"),
                     ("tool_use_id", .str tuid),
                     ("content", .str (a.content.getD ""))])
      | none => .error "AttributeError"
    else .ok none

/-- The blocks a list-shaped content keeps after normalization, assuming
no fault: dicts verbatim, recognized attribute blocks converted. -/
def keptBlocks (bs : List PyBlock) : List JObj :=
  bs.filterMap (fun b => ((normalizeBlock b).toOption).join)

/-- The `for block in content` pass of `_normalize_content_blocks`,
stopping at the first `AttributeError`. -/
def normalizeBlocksAux : List PyBlock → Except String (List (Option JObj))
  | [] => .ok []
  | b :: rest =>
    match normalizeBlock b with
    | .error e => .error e
    | .ok o =>
      match normalizeBlocksAux rest with
      | .error e => .error e
      | .ok os => .ok (o :: os)

/-- Models `EducationalAgent._normalize_content_blocks`. -/
def normalizeContentBlocks (c : PyContent) : Except String (List JObj) :=
  match c with
  | .list bs =>
    match normalizeBlocksAux bs with
    | .error e => .error e
    | .ok opts =>
      let normalized := opts.filterMap (fun o => o)
      if normalized.isEmpty then .ok [textBlock (pyStr c)]
      else .ok normalized
  | _ => .ok [textBlock (pyStr c)]

/-! ## `_prepare_anthropic_messages` -/

/-- The request view of a message after normalization. -/
structure ReqMsg where
  role : String
  blocks : List JObj

/-- Worker for `_prepare_anthropic_messages`: the last system message wins
and is removed from the request list; every other message is normalized. -/
def prepareGo : List Msg → Option String → List ReqMsg →
    Except String (Option String × List ReqMsg)
  | [], sys, acc => .ok (sys, acc)
  | m :: rest, sys, acc =>
    if m.role = "system" then
      prepareGo rest (some (pyStr m.content)) acc
    else
      match normalizeContentBlocks m.content with
      | .error e => .error e
      | .ok nb => prepareGo rest sys (acc ++ [⟨m.role, nb⟩])

/-- Models `EducationalAgent._prepare_anthropic_messages`. -/
def prepareAnthropicMessages (msgs : List Msg) :
    Except String (Option String × List ReqMsg) :=
  prepareGo msgs none []

/-! ## `_parse_assistant_content` -/

/-- A tool request extracted from the model response; in the source this
is the same dict as the one appended to the assistant turn, carrying
`id`, `name` and `input`. -/
structure ToolUse where
  id : String
  name : String
  input : JObj

/-- The dict form of a tool-use block, shared between the assistant turn
and `tool_uses`. -/
def toolUseDict (tu : ToolUse) : JObj :=
  [("type", .str "tool_use"), ("id", .str tu.id),
   ("name", .str tu.name), ("input", .obj tu.input)]

/-- Parse one response block: a text block keeps its text (default `""`);
a tool-use block must carry `id` and `name` (bare `getattr`) and its
falsy-or-absent `input` becomes `{}`; anything else falls back to its
`text` attribute, then `json.dumps(block.to_dict())`, then `str(block)`. -/
def parseBlock (a : ABlock) : Except String (JObj × Option ToolUse) :=
  if a.type = some "text" then
    .ok (textBlock (a.text.getD ""), none)
  else if a.type = some "tool_use" then
    match a.id, a.name with
    | some i, some n =>
        let tu : ToolUse := ⟨i, n, a.input.getD []⟩
        .ok (toolUseDict tu, some tu)
    | _, _ => .error "AttributeError"
  else
    let fb :=
      match a.text with
      | some t => t
      | none => match a.toDict with
                | some d => d
                | none => a.reprStr
    .ok (textBlock fb, none)

/-- Models `EducationalAgent._parse_assistant_content`: returns the normalized
assistant blocks and, in order, the tool requests among them. -/
def parseAssistantContent : List ABlock → Except String (List JObj × List ToolUse)
  | [] => .ok ([], [])
  | a :: rest =>
    match parseBlock a with
    | .error e => .error e
    | .ok (blk, tu?) =>
      match parseAssistantContent rest with
      | .error e => .error e
      | .ok (blks, tus) =>
        match tu? with
        | some tu => .ok (blk :: blks, tu :: tus)
        | none => .ok (blk :: blks, tus)

/-- The text of an assistant turn:
`"\n".join(block["text"] for block in assistant_blocks if block["type"] == "text")`.
Blocks produced by `_parse_assistant_content` always carry a string
`"text"` when their type is `"text"`. -/
def assistantTextOf (blocks : List JObj) : String :=
  String.intercalate "\n" (blocks.filterMap (fun b =>
    match jlookup b "type", jlookup b "text" with
    | some (.str "text"), some (.str t) => some t
    | _, _ => none))

/-! ## The agent loop -/

/-- Failure modes of `_run_loop`: the `AgentLoopError` raised when the
turn budget is exhausted, an uncaught registry/tool exception
(`ToolNotFoundError` or a tool-body exception — only
`ToolInvocationError` is caught by `_handle_tool_use`), or an
`AttributeError` escaping the block plumbing. -/
inductive LoopErr where
  | loopExceeded (msg : String)
  | toolFault (e : ToolErr)
  | pyFault (msg : String)
deriving Repr, DecidableEq

def agentLoopErrorMsg : String :=
  "Agent exceeded maximum number of turns without producing a final answer."

/-- The backend (`self._client.messages.create`): from the prepared
system prompt and request messages to the response content blocks. -/
abbrev Backend := Option String → List ReqMsg → List ABlock

/-- Models `EducationalAgent._handle_tool_use`: invoke through the registry,
catching `ToolInvocationError` only and converting it to the in-band
result text; `ToolNotFoundError` and tool-body exceptions propagate. -/
def handleToolUse (reg : ToolRegistry) (tu : ToolUse) (st : MemState) :
    Except ToolErr (MemState × String) :=
  match reg.invoke tu.name tu.input st with
  | .ok r => .ok r
  | .error (.invocation m) => .ok (st, "Tool " ++ tu.name ++ " failed: " ++ m)
  | .error e => .error e

/-- The `for tool_use in tool_uses` dispatch: sequential, in emission
order, building one `tool_result` block per request.  On an uncaught
exception the blocks accumulated so far are discarded (the Python loop
never reaches `messages.append`) but state changes made by earlier tool
bodies persist. -/
def dispatchTools (reg : ToolRegistry) :
    List ToolUse → MemState → MemState × Except ToolErr (List JObj)
  | [], st => (st, .ok [])
  | tu :: rest, st =>
    match handleToolUse reg tu st with
    | .error e => (st, .error e)
    | .ok (st', txt) =>
      match dispatchTools reg rest st' with
      | (st'', .ok blks) => (st'', .ok (toolResultBlock tu.id txt :: blks))
      | (st'', .error e) => (st'', .error e)

/-- The outcome of `_run_loop`: the returned answer or raised error,
together with the final `messages` list (mutated in place in Python, so
it survives an exception) and the final mistake store. -/
structure LoopOut where
  result : Except LoopErr String
  msgs : List Msg
  state : MemState

/-- Models `EducationalAgent._run_loop`, by recursion on the remaining turns of
`for _ in range(max_turns)`. -/
def runLoopAux (reg : ToolRegistry) (backend : Backend) :
    Nat → MemState → List Msg → LoopOut
  | 0, st, msgs => ⟨.error (.loopExceeded agentLoopErrorMsg), msgs, st⟩
  | fuel + 1, st, msgs =>
    match prepareAnthropicMessages msgs with
    | .error e => ⟨.error (.pyFault e), msgs, st⟩
    | .ok (sys, req) =>
      match parseAssistantContent (backend sys req) with
      | .error e => ⟨.error (.pyFault e), msgs, st⟩
      | .ok (blocks, toolUses) =>
        let msgs1 := msgs ++ [⟨"assistant", .list (blocks.map PyBlock.dict)⟩]
        if toolUses.isEmpty then
          ⟨.ok (strStrip (assistantTextOf blocks)), msgs1, st⟩
        else
          match dispatchTools reg toolUses st with
          | (st', .error e) => ⟨.error (.toolFault e), msgs1, st'⟩
          | (st', .ok resultBlocks) =>
            runLoopAux reg backend fuel st'
              (msgs1 ++ [⟨"user", .list (resultBlocks.map PyBlock.dict)⟩])

/-! ## `AgentConversation` -/

/-- The conversation state: the shared `messages` list (seeded with the
system turn) and the `_has_primary_goal` flag. -/
structure Conversation where
  messages : List Msg
  hasPrimaryGoal : Bool

/-- Models `EducationalAgent.start_conversation` and `AgentConversation.__init__`. -/
def startConversation : Conversation :=
  ⟨[⟨"system", .str SYSTEM_PROMPT⟩], false⟩

structure AskOut where
  result : Except LoopErr String
  conv : Conversation
  state : MemState

/-- Models `AgentConversation.ask`.  The Python default for `max_turns` is `6`;
`EducationalAgent.run` calls it with its own default of `15`.  Only the
first input is wrapped in the goal template; the flag is set by that
first call and remains `true` afterwards. -/
def Conversation.ask (c : Conversation) (reg : ToolRegistry)
    (backend : Backend) (st : MemState) (userInput : String)
    (maxTurns : Nat) : AskOut :=
  let txt := if c.hasPrimaryGoal then userInput else userWrapperFormat userInput
  let msgs := c.messages ++ [⟨"user", .list [PyBlock.dict (textBlock txt)]⟩]
  let out := runLoopAux reg backend maxTurns st msgs
  ⟨out.result, ⟨out.msgs, true⟩, out.state⟩

/-- The declared default of `max_turns` in `AgentConversation.ask`. -/
def askDefaultMaxTurns : Nat := 6

/-- The declared default of `max_turns` in `EducationalAgent.run`. -/
def runDefaultMaxTurns : Nat := 15

/-- Models `EducationalAgent.run`: a fresh conversation plus one `ask`. -/
def agentRun (reg : ToolRegistry) (backend : Backend) (st : MemState)
    (goal : String) (maxTurns : Nat) : AskOut :=
  Conversation.ask startConversation reg backend st goal maxTurns

/-! ## Notions used to state the claims -/

/-- The argument dict carrying just an optional topic filter. -/
def searchTopicArgs : Option String → JObj
  | none => []
  | some s => [("topic", .str s)]

/-- Re-derive the required argument-field names from an exported
wire-shape entry: dig `input_schema`, then its `required` array. -/
def deriveRequiredFields (entry : JObj) : List String :=
  match jlookup entry "input_schema" with
  | some (.obj s) =>
    match jlookup s "required" with
    | some (.arr xs) =>
        xs.filterMap (fun v => match v with | .str r => some r | _ => none)
    | _ => []
  | _ => []

/-- A tool request the dispatcher can handle in-band: the invocation
either succeeds or fails with a `ToolInvocationError` (the only class
`_handle_tool_use` catches). -/
def Handled (reg : ToolRegistry) (tu : ToolUse) (st : MemState) : Prop :=
  (∃ r, reg.invoke tu.name tu.input st = .ok r) ∨
  (∃ m, reg.invoke tu.name tu.input st = .error (.invocation m))

/-- Predicate `keepsTooling reg backend n st msgs`: for `n` successive rounds from
this loop state, the model response parses to at least one tool request
and the whole tool dispatch completes in-band. -/
def keepsTooling (reg : ToolRegistry) (backend : Backend) :
    Nat → MemState → List Msg → Prop
  | 0, _, _ => True
  | n + 1, st, msgs =>
    ∃ sys req blocks toolUses st' results,
      prepareAnthropicMessages msgs = .ok (sys, req) ∧
      parseAssistantContent (backend sys req) = .ok (blocks, toolUses) ∧
      toolUses ≠ [] ∧
      dispatchTools reg toolUses st = (st', .ok results) ∧
      keepsTooling reg backend n st'
        ((msgs ++ [⟨"assistant", .list (blocks.map PyBlock.dict)⟩]) ++
         [⟨"user", .list (results.map PyBlock.dict)⟩])

/-- Well-formedness of an attribute-style block: the attributes read by a
bare `getattr` (no default) are present for the type that reads them. -/
def ABlockWF (a : ABlock) : Prop :=
  (a.type = some "tool_use" → a.id.isSome ∧ a.name.isSome) ∧
  (a.type = some "tool_result" → a.toolUseId.isSome)

def PyBlockWF : PyBlock → Prop
  | .dict _ => True
  | .attr a => ABlockWF a

def ContentWF : PyContent → Prop
  | .list bs => ∀ b ∈ bs, PyBlockWF b
  | _ => True

/-! ## Concrete backends and states used as witnesses/counterexamples -/

/-- A backend whose every response requests the unregistered tool `echo`
(the tool `main.py`'s `validate` command also expects). -/
def echoBackend : Backend := fun _ _ => [ABlock.toolUseBlk "call_1" "echo" []]

/-- A backend whose every response requests the unregistered tool
`ghost`. -/
def ghostBackend : Backend := fun _ _ => [ABlock.toolUseBlk "g1" "ghost" []]

/-- A backend whose every response requests the unregistered tool
`phantom`. -/
def phantomBackend : Backend := fun _ _ => [ABlock.toolUseBlk "p1" "phantom" []]

/-- A backend whose every response requests `mistakes_search` with no
arguments. -/
def searchBackend : Backend := fun _ _ => [ABlock.toolUseBlk "c1" "mistakes_search" []]

/-- A backend that replies with plain text surrounded by whitespace. -/
def textBackend : Backend := fun _ _ => [ABlock.textBlk "  The answer is 4.  "]

/-- A backend whose response carries two tool requests in one assistant
turn: a valid store call followed by a search call. -/
def duoBackend : Backend := fun _ _ =>
  [ABlock.toolUseBlk "a1" "mistakes_store"
     [("topic", .str "por/para"), ("detail", .str "mixes up por and para")],
   ABlock.toolUseBlk "a2" "mistakes_search" [("topic", .str "por/para")]]

/-- The store after logging the ser/estar mistake of the spec's example. -/
def serEstarStore : MemState :=
  [⟨"ser/estar", "confuses ser and estar for location"⟩]

/-- A store holding records under two distinct topics. -/
def twoTopicStore : MemState := [⟨"a", "d1"⟩, ⟨"b", "d2"⟩]

/-- A backend whose every response requests `mistakes_store` with no
arguments, so every invocation fails pydantic validation. -/
def failStoreBackend : Backend := fun _ _ =>
  [ABlock.toolUseBlk "f1" "mistakes_store" []]

/-- The messages seeding a fresh conversation after its first (wrapped)
user input, for a given goal text. -/
def seededMsgs (goal : String) : List Msg :=
  startConversation.messages ++
    [⟨"user", .list [PyBlock.dict (textBlock (userWrapperFormat goal))]⟩]

/-- The two tool requests `duoBackend` emits in one assistant turn. -/
def duoToolUses : List ToolUse :=
  [⟨"a1", "mistakes_store",
      [("topic", .str "por/para"), ("detail", .str "mixes up por and para")]⟩,
   ⟨"a2", "mistakes_search", [("topic", .str "por/para")]⟩]

/-! ## Helper lemmas -/

/-- The loop only ever appends to the `messages` list it is given. -/
theorem runLoopAux_msgs_append (reg : ToolRegistry) (backend : Backend) :
    ∀ (fuel : Nat) (st : MemState) (msgs : List Msg),
    ∃ suffix, (runLoopAux reg backend fuel st msgs).msgs = msgs ++ suffix
  | 0, st, msgs => ⟨[], by simp [runLoopAux]⟩
  | fuel + 1, st, msgs => by
    cases hprep : prepareAnthropicMessages msgs with
    | error e => exact ⟨[], by simp [runLoopAux, hprep]⟩
    | ok pr =>
      obtain ⟨sys, req⟩ := pr
      cases hparse : parseAssistantContent (backend sys req) with
      | error e => exact ⟨[], by simp [runLoopAux, hprep, hparse]⟩
      | ok bt =>
        obtain ⟨blocks, toolUses⟩ := bt
        cases toolUses with
        | nil =>
          exact ⟨[⟨"assistant", .list (blocks.map PyBlock.dict)⟩],
            by simp [runLoopAux, hprep, hparse]⟩
        | cons tu rest =>
          cases hdisp : dispatchTools reg (tu :: rest) st with
          | mk st' r =>
            cases r with
            | error e =>
              exact ⟨[⟨"assistant", .list (blocks.map PyBlock.dict)⟩],
                by simp [runLoopAux, hprep, hparse, hdisp]⟩
            | ok resultBlocks =>
              obtain ⟨suffix, hs⟩ := runLoopAux_msgs_append reg backend fuel st'
                ((msgs ++ [⟨"assistant", .list (blocks.map PyBlock.dict)⟩]) ++
                 [⟨"user", .list (resultBlocks.map PyBlock.dict)⟩])
              exact ⟨[⟨"assistant", .list (blocks.map PyBlock.dict)⟩,
                      ⟨"user", .list (resultBlocks.map PyBlock.dict)⟩] ++ suffix,
                by simp [runLoopAux, hprep, hparse, hdisp] at hs ⊢
                   simpa using hs⟩

/-- An in-band-handled tool request never makes `_handle_tool_use` raise. -/
theorem handleToolUse_ok_of_handled (reg : ToolRegistry) (tu : ToolUse)
    (st : MemState) (h : Handled reg tu st) :
    ∃ p, handleToolUse reg tu st = .ok p := by
  rcases h with ⟨r, hr⟩ | ⟨m, hm⟩
  · exact ⟨r, by simp [handleToolUse, hr]⟩
  · exact ⟨(st, "Tool " ++ tu.name ++ " failed: " ++ m),
      by simp [handleToolUse, hm]⟩

/-- If every request of a batch is handled in-band, the dispatch
completes with one `tool_result` block per request, ids matching, in
order. -/
theorem dispatchTools_ok_of_handled (reg : ToolRegistry) :
    ∀ (tus : List ToolUse) (st : MemState),
    (∀ tu ∈ tus, ∀ s, Handled reg tu s) →
    ∃ st' res, dispatchTools reg tus st = (st', .ok res) ∧
      List.Forall₂ (fun (tu : ToolUse) (b : JObj) =>
        jlookup b "type" = some (.str "tool_result") ∧
        jlookup b "tool_use_id" = some (.str tu.id)) tus res
  | [], st, _ => ⟨st, [], rfl, .nil⟩
  | tu :: rest, st, h => by
    obtain ⟨q, hq⟩ := handleToolUse_ok_of_handled reg tu st (h tu (by simp) st)
    obtain ⟨st1, txt⟩ := q
    obtain ⟨st', res, hd, hf⟩ :=
      dispatchTools_ok_of_handled reg rest st1 (fun x hx s => h x (by simp [hx]) s)
    refine ⟨st', toolResultBlock tu.id txt :: res, ?_, ?_⟩
    · simp [dispatchTools, hq, hd]
    · exact .cons ⟨rfl, rfl⟩ hf

/-- When a round's dispatch completes, the loop appends the assistant
turn and one user turn holding all the result blocks, then issues the
next model request from that extended state. -/
theorem runLoopAux_continues (reg : ToolRegistry) (backend : Backend)
    (n : Nat) (st : MemState) (msgs : List Msg) (sys : Option String)
    (req : List ReqMsg) (blocks : List JObj) (tu : ToolUse)
    (rest : List ToolUse) (st' : MemState) (results : List JObj)
    (hprep : prepareAnthropicMessages msgs = .ok (sys, req))
    (hparse : parseAssistantContent (backend sys req) = .ok (blocks, tu :: rest))
    (hdisp : dispatchTools reg (tu :: rest) st = (st', .ok results)) :
    runLoopAux reg backend (n + 1) st msgs =
      runLoopAux reg backend n st'
        ((msgs ++ [⟨"assistant", .list (blocks.map PyBlock.dict)⟩]) ++
         [⟨"user", .list (results.map PyBlock.dict)⟩]) := by
  conv_lhs => unfold runLoopAux
  simp only [hprep, hparse, List.isEmpty_cons, Bool.false_eq_true, if_false, hdisp]

/-- A bounded pydantic `int` field accepts an in-range integer. -/
theorem boundedIntField_ok (args : JObj) (field : String)
    (lo hi dflt l : Int) (hl : jlookup args field = some (.int l))
    (h1 : lo ≤ l) (h2 : l ≤ hi) :
    boundedIntField args field lo hi dflt = .ok l := by
  unfold boundedIntField
  rw [hl]
  simp [show ¬ l < lo by omega, show ¬ hi < l by omega]

/-- Validation of `MistakeSearchArgs` succeeds on an explicit in-range limit. -/
theorem mistakeSearchValidate_ok (topic : Option String) (l : Int)
    (h1 : 1 ≤ l) (h2 : l ≤ 20) :
    mistakeSearchValidate (searchTopicArgs topic ++ [("limit", JVal.int l)])
      = .ok [("topic", match topic with
                       | none => JVal.null
                       | some s => JVal.str s),
             ("limit", .int l)] := by
  cases topic with
  | none =>
      have hb := boundedIntField_ok [("limit", JVal.int l)] "limit" 1 20 5 l rfl h1 h2
      show mistakeSearchValidate [("limit", JVal.int l)] = _
      unfold mistakeSearchValidate
      rw [show optionalStr [("limit", JVal.int l)] "topic" = .ok none from rfl, hb]
  | some s =>
      have hb := boundedIntField_ok [("topic", JVal.str s), ("limit", JVal.int l)]
        "limit" 1 20 5 l rfl h1 h2
      show mistakeSearchValidate [("topic", JVal.str s), ("limit", JVal.int l)] = _
      unfold mistakeSearchValidate
      rw [show optionalStr [("topic", JVal.str s), ("limit", JVal.int l)] "topic"
            = .ok (some s) from rfl, hb]

/-- Validation of `MistakeSearchArgs` with the limit left to its default. -/
theorem mistakeSearchValidate_default (topic : Option String) :
    mistakeSearchValidate (searchTopicArgs topic)
      = .ok [("topic", match topic with
                       | none => JVal.null
                       | some s => JVal.str s),
             ("limit", .int 5)] := by
  cases topic with
  | none => rfl
  | some s => rfl

/-- Invoking `mistakes_search` through the registry with a valid limit
reduces to the tool body on the parsed arguments. -/
theorem search_invoke_eq (st : MemState) (topic : Option String) (l : Int)
    (h1 : 1 ≤ l) (h2 : l ≤ 20) :
    defaultRegistry.invoke "mistakes_search"
        (searchTopicArgs topic ++ [("limit", JVal.int l)]) st
      = .ok (st, mistakesSearchRun topic l st) := by
  show mistakesSearchTool.invoke _ st = _
  unfold MTool.invoke
  have hv := mistakeSearchValidate_ok topic l h1 h2
  rw [show mistakesSearchTool.validate = mistakeSearchValidate from rfl, hv]
  cases topic with
  | none => rfl
  | some s => rfl

/-- Invoking `mistakes_search` without a limit uses the default `5`. -/
theorem search_invoke_default (st : MemState) (topic : Option String) :
    defaultRegistry.invoke "mistakes_search" (searchTopicArgs topic) st
      = .ok (st, mistakesSearchRun topic 5 st) := by
  show mistakesSearchTool.invoke _ st = _
  unfold MTool.invoke
  rw [show mistakesSearchTool.validate = mistakeSearchValidate from rfl,
    mistakeSearchValidate_default topic]
  cases topic with
  | none => rfl
  | some s => rfl

/-- A loop state that keeps requesting tools for its whole fuel budget
exhausts the budget, raising `AgentLoopError` after exactly that many
request/response rounds (each round appends two turns). -/
theorem runLoopAux_keepsTooling (reg : ToolRegistry) (backend : Backend) :
    ∀ (n : Nat) (st : MemState) (msgs : List Msg),
    keepsTooling reg backend n st msgs →
    (runLoopAux reg backend n st msgs).result
        = .error (.loopExceeded agentLoopErrorMsg) ∧
    (runLoopAux reg backend n st msgs).msgs.length = msgs.length + 2 * n
  | 0, st, msgs, _ => ⟨rfl, by simp [runLoopAux]⟩
  | n + 1, st, msgs, hkt => by
    obtain ⟨sys, req, blocks, toolUses, st', results,
      hprep, hparse, hne, hdisp, hrest⟩ := hkt
    cases toolUses with
    | nil => exact absurd rfl hne
    | cons tu rest =>
      have hcont := runLoopAux_continues reg backend n st msgs sys req blocks
        tu rest st' results hprep hparse hdisp
      have ih := runLoopAux_keepsTooling reg backend n st' _ hrest
      rw [hcont]
      refine ⟨ih.1, ?_⟩
      rw [ih.2]
      simp [List.length_append]
      omega

/-- On a well-formed block, normalization never raises. -/
theorem normalizeBlock_ok_of_wf (b : PyBlock) (h : PyBlockWF b) :
    ∃ o, normalizeBlock b = .ok o := by
  cases b with
  | dict d => exact ⟨some d, rfl⟩
  | attr a =>
    obtain ⟨h1, h2⟩ := h
    simp only [normalizeBlock]
    by_cases ht : a.type = some "text"
    · exact ⟨_, by rw [if_pos ht]⟩
    by_cases hu : a.type = some "tool_use"
    · obtain ⟨hid, hnm⟩ := h1 hu
      obtain ⟨i, hi⟩ := Option.isSome_iff_exists.mp hid
      obtain ⟨n, hn⟩ := Option.isSome_iff_exists.mp hnm
      exact ⟨_, by rw [if_neg ht, if_pos hu, hi, hn]⟩
    by_cases hr : a.type = some "tool_result"
    · obtain ⟨u, hres⟩ := Option.isSome_iff_exists.mp (h2 hr)
      exact ⟨_, by rw [if_neg ht, if_neg hu, if_pos hr, hres]⟩
    · exact ⟨none, by rw [if_neg ht, if_neg hu, if_neg hr]⟩

/-- On a list of well-formed blocks, the normalization pass never raises
and keeps exactly `keptBlocks`. -/
theorem normalizeBlocksAux_ok :
    ∀ (bs : List PyBlock), (∀ b ∈ bs, PyBlockWF b) →
    ∃ opts, normalizeBlocksAux bs = .ok opts ∧
      opts.filterMap (fun o => o) = keptBlocks bs
  | [], _ => ⟨[], rfl, rfl⟩
  | b :: rest, h => by
    obtain ⟨o, ho⟩ := normalizeBlock_ok_of_wf b (h b (by simp))
    obtain ⟨opts, hm, hk⟩ :=
      normalizeBlocksAux_ok rest (fun x hx => h x (by simp [hx]))
    refine ⟨o :: opts, ?_, ?_⟩
    · unfold normalizeBlocksAux
      rw [ho, hm]
    · simp only [List.filterMap_cons, keptBlocks, ho, Except.toOption,
        Option.join, hk]
      cases o with
      | none => simp [keptBlocks]
      | some x => simp [keptBlocks]

/-! ## Claim theorems -/

/-- C2: the first model response whose parsed content carries zero
tool-use requests terminates the loop normally — at any loop state with
at least one turn of budget left, i.e. regardless of how many tool rounds
preceded it — and the final answer is the newline-joined text of that
response's text blocks with surrounding whitespace stripped; when that
text is empty, the stripped empty string is returned rather than an
error. -/
theorem loop_terminates_on_tool_free_response
    (reg : ToolRegistry) (backend : Backend) (n : Nat) (st : MemState)
    (msgs : List Msg) (sys : Option String) (req : List ReqMsg)
    (blocks : List JObj)
    (hprep : prepareAnthropicMessages msgs = .ok (sys, req))
    (hparse : parseAssistantContent (backend sys req) = .ok (blocks, [])) :
    (runLoopAux reg backend (n + 1) st msgs).result
      = .ok (strStrip (assistantTextOf blocks)) := by
  conv_lhs => unfold runLoopAux
  simp only [hprep, hparse, List.isEmpty_nil, if_true]

/-- Witness for C2: a fresh conversation whose first response is the plain
text `"  The answer is 4.  "` ends with final answer `"The answer is 4."`;
both hypotheses are discharged by computation. -/
theorem loop_terminates_on_tool_free_response_witness :
    prepareAnthropicMessages (seededMsgs "What is 2 + 2?")
      = .ok (some SYSTEM_PROMPT,
             [⟨"user", [textBlock (userWrapperFormat "What is 2 + 2?")]⟩]) ∧
    parseAssistantContent
        (textBackend (some SYSTEM_PROMPT)
          [⟨"user", [textBlock (userWrapperFormat "What is 2 + 2?")]⟩])
      = .ok ([textBlock "  The answer is 4.  "], []) ∧
    (runLoopAux defaultRegistry textBackend 3 [] (seededMsgs "What is 2 + 2?")).result
      = .ok "The answer is 4." := by
  refine ⟨rfl, rfl, ?_⟩
  have h := loop_terminates_on_tool_free_response defaultRegistry textBackend 2 []
    (seededMsgs "What is 2 + 2?") (some SYSTEM_PROMPT)
    [⟨"user", [textBlock (userWrapperFormat "What is 2 + 2?")]⟩]
    [textBlock "  The answer is 4.  "] rfl rfl
  exact h.trans rfl

/-- C5: `ToolRegistry.invoke` raises `ToolNotFoundError` exactly on
unregistered names; on a registered tool, a validation failure raises
`ToolInvocationError` with the tool body never executed (the outcome is
the same for every body); on successful validation the body runs and a
string result is returned unchanged while any other result is
`json.dumps`-encoded. -/
theorem registry_invoke_contract :
    (∀ (reg : ToolRegistry) (name : String) (args : JObj) (st : MemState),
       reg.tools.lookup name = none →
       reg.invoke name args st
         = .error (.notFound ("Tool '" ++ name ++ "' is not registered."))) ∧
    (∀ (reg : ToolRegistry) (name : String) (t : MTool) (args : JObj)
       (st : MemState),
       reg.tools.lookup name = some t →
       reg.invoke name args st = t.invoke args st ∧
       ∀ m, reg.invoke name args st ≠ .error (.notFound m)) ∧
    (∀ (nm desc : String) (schema : JObj) (reqd : List String)
       (val : JObj → Except String JObj)
       (body : JObj → MemState → Except String (MemState × JVal))
       (args : JObj) (st : MemState) (m : String),
       val args = .error m →
       MTool.invoke ⟨nm, desc, schema, reqd, val, body⟩ args st
         = .error (.invocation m)) ∧
    (∀ (t : MTool) (args : JObj) (st : MemState) (parsed : JObj)
       (st' : MemState) (v : JVal),
       t.validate args = .ok parsed → t.run parsed st = .ok (st', v) →
       t.invoke args st = .ok (st', serializeResult v)) ∧
    (∀ s, serializeResult (.str s) = s) ∧
    (∀ v : JVal, (∀ s, v ≠ .str s) → serializeResult v = jsonDumps v) := by
  refine ⟨?_, ?_, ?_, ?_, fun s => rfl, ?_⟩
  · intro reg name args st h
    simp [ToolRegistry.invoke, ToolRegistry.get, h]
  · intro reg name t args st h
    have he : reg.invoke name args st = t.invoke args st := by
      simp [ToolRegistry.invoke, ToolRegistry.get, h]
    refine ⟨he, ?_⟩
    intro m hm
    rw [he] at hm
    cases hv : t.validate args with
    | error e => simp [MTool.invoke, hv] at hm
    | ok parsed =>
      cases hr : t.run parsed st with
      | error e => simp [MTool.invoke, hv, hr] at hm
      | ok p =>
        obtain ⟨st', v⟩ := p
        simp [MTool.invoke, hv, hr] at hm
  · intro nm desc schema reqd val body args st m h
    simp [MTool.invoke, h]
  · intro t args st parsed st' v h1 h2
    simp [MTool.invoke, h1, h2]
  · intro v hv
    cases v with
    | str s => exact absurd rfl (hv s)
    | null => rfl
    | bool b => rfl
    | int n => rfl
    | arr xs => rfl
    | obj kvs => rfl

/-- Witness for C5: the unregistered `echo` raises `ToolNotFoundError`;
`mistakes_search` dispatches to its tool without a not-found error; a
store call with missing required arguments fails validation identically
for an unrelated body, never reaching it; and the profile tool's dict
result comes back as its deterministic JSON encoding. -/
theorem registry_invoke_contract_witness :
    defaultRegistry.tools.lookup "echo" = none ∧
    defaultRegistry.invoke "echo" [("text", .str "hello")] []
      = .error (.notFound "Tool 'echo' is not registered.") ∧
    defaultRegistry.invoke "mistakes_search" [] []
      = mistakesSearchTool.invoke [] [] ∧
    mistakeStoreValidate [] = .error "topic: Field required" ∧
    MTool.invoke ⟨"mistakes_store", mistakesStoreTool.description,
        mistakeStoreSchema, ["topic", "detail"], mistakeStoreValidate,
        basicUserInfoRun⟩ [] []
      = .error (.invocation "topic: Field required") ∧
    defaultRegistry.invoke "basic_user_info" [] []
      = .ok ([], "\x7b\"name\": \"Alicia\", \"location\": \"London, United Kingdom\", \"interests\": [\"Knitting\"], \"preferred_conversation_style\": \"Warm, encouraging, and slightly informal.\", \"time_spent_learning_hours\": 360\x7d") := by
  refine ⟨rfl, ?_, ?_, rfl, ?_, ?_⟩
  · exact registry_invoke_contract.1 defaultRegistry "echo"
      [("text", .str "hello")] [] rfl
  · exact (registry_invoke_contract.2.1 defaultRegistry "mistakes_search"
      mistakesSearchTool [] [] rfl).1
  · exact registry_invoke_contract.2.2.1 "mistakes_store"
      mistakesStoreTool.description mistakeStoreSchema ["topic", "detail"]
      mistakeStoreValidate basicUserInfoRun [] [] "topic: Field required" rfl
  · have h := registry_invoke_contract.2.2.2.1 basicUserInfoTool [] [] [] []
      (.obj [("name", .str "Alicia"),
             ("location", .str "London, United Kingdom"),
             ("interests", .arr [.str "Knitting"]),
             ("preferred_conversation_style",
                .str "Warm, encouraging, and slightly informal."),
             ("time_spent_learning_hours", .int 360)]) rfl rfl
    exact h.trans rfl

/-- C7: a fresh conversation starts without the primary-goal flag; `ask`
appends the user turn at the next position with the raw input injected
into the `USER_WRAPPER` goal template exactly when the flag is still
unset, and with the input verbatim otherwise; and after any `ask` the
flag is set, so only the first input of a conversation is wrapped. -/
theorem only_first_user_input_wrapped :
    startConversation.hasPrimaryGoal = false ∧
    ∀ (c : Conversation) (reg : ToolRegistry) (backend : Backend)
      (st : MemState) (input : String) (maxTurns : Nat),
      (c.ask reg backend st input maxTurns).conv.hasPrimaryGoal = true ∧
      (c.ask reg backend st input maxTurns).conv.messages[c.messages.length]? =
        some ⟨"user", .list [PyBlock.dict (textBlock
          (if c.hasPrimaryGoal then input else userWrapperFormat input))]⟩ := by
  refine ⟨rfl, ?_⟩
  intro c reg backend st input maxTurns
  refine ⟨rfl, ?_⟩
  obtain ⟨suffix, hs⟩ := runLoopAux_msgs_append reg backend maxTurns st
    (c.messages ++ [⟨"user", .list [PyBlock.dict (textBlock
      (if c.hasPrimaryGoal then input else userWrapperFormat input))]⟩])
  have hmsg : (c.ask reg backend st input maxTurns).conv.messages
      = (runLoopAux reg backend maxTurns st
          (c.messages ++ [⟨"user", .list [PyBlock.dict (textBlock
            (if c.hasPrimaryGoal then input else userWrapperFormat input))]⟩])).msgs := rfl
  rw [hmsg, hs, List.append_assoc,
    List.getElem?_append_right (Nat.le_refl _)]
  simp

/-- C8: the registry's tool-catalog export is precisely one wire-shape
entry per tool (`as_anthropic_tools`, the only wire shape this registry
produces), and re-deriving the required-field names from each exported
entry recovers exactly the required fields declared by that tool's
pydantic argument schema. -/
theorem wire_schema_required_roundtrip :
    defaultRegistry.asAnthropicTools
      = defaultRegistry.tools.map (fun p => schemaOf p.2) ∧
    ∀ p ∈ defaultRegistry.tools,
      deriveRequiredFields (schemaOf p.2) = p.2.declaredRequired := by
  refine ⟨rfl, ?_⟩
  intro p hp
  have hreg : defaultRegistry.tools =
      [("basic_user_info", basicUserInfoTool),
       ("mistakes_store", mistakesStoreTool),
       ("mistakes_search", mistakesSearchTool)] := rfl
  rw [hreg] at hp
  simp only [List.mem_cons, List.not_mem_nil, or_false] at hp
  rcases hp with rfl | rfl | rfl
  · rfl
  · rfl
  · rfl

/-- Witness for C8: the store tool is registered, and its exported entry
round-trips to the declared required fields `["topic", "detail"]`. -/
theorem wire_schema_required_roundtrip_witness :
    ("mistakes_store", mistakesStoreTool) ∈ defaultRegistry.tools ∧
    deriveRequiredFields (schemaOf mistakesStoreTool) = ["topic", "detail"] := by
  have hmem : ("mistakes_store", mistakesStoreTool) ∈ defaultRegistry.tools := by
    rw [show defaultRegistry.tools =
        [("basic_user_info", basicUserInfoTool),
         ("mistakes_store", mistakesStoreTool),
         ("mistakes_search", mistakesSearchTool)] from rfl]
    exact List.mem_cons_of_mem _ (List.mem_cons_self _ _)
  exact ⟨hmem, wire_schema_required_roundtrip.2 _ hmem⟩

/-- C9: searching with `topic` equal to the empty string behaves exactly
like searching with no topic at all — Python's `if topic:` is falsy on
the empty string — returning up to `limit` records of every topic rather
than an empty-topic match or the sentinel. -/
theorem empty_topic_behaves_as_no_filter
    (st : MemState) (l : Int) (h1 : 1 ≤ l) (h2 : l ≤ 20) :
    defaultRegistry.invoke "mistakes_search"
        [("topic", .str ""), ("limit", .int l)] st
      = defaultRegistry.invoke "mistakes_search" [("limit", .int l)] st ∧
    defaultRegistry.invoke "mistakes_search"
        [("topic", .str ""), ("limit", .int l)] st
      = .ok (st, mistakesSearchRun none l st) := by
  have ha := search_invoke_eq st (some "") l h1 h2
  have hb := search_invoke_eq st none l h1 h2
  simp only [searchTopicArgs, List.cons_append, List.nil_append] at ha hb
  have hrun : mistakesSearchRun (some "") l st = mistakesSearchRun none l st := rfl
  rw [hrun] at ha
  exact ⟨ha.trans hb.symm, ha⟩

/-- Witness for C9: on a store holding records under two topics, the
empty-string topic returns both records, the same as no topic. -/
theorem empty_topic_behaves_as_no_filter_witness :
    (1 : Int) ≤ 5 ∧ (5 : Int) ≤ 20 ∧
    defaultRegistry.invoke "mistakes_search"
        [("topic", .str ""), ("limit", .int 5)] twoTopicStore
      = defaultRegistry.invoke "mistakes_search" [("limit", .int 5)] twoTopicStore ∧
    defaultRegistry.invoke "mistakes_search"
        [("topic", .str ""), ("limit", .int 5)] twoTopicStore
      = .ok (twoTopicStore, "- a: d1\n- b: d2") := by
  refine ⟨by decide, by decide, ?_, ?_⟩
  · exact (empty_topic_behaves_as_no_filter twoTopicStore 5
      (by decide) (by decide)).1
  · exact ((empty_topic_behaves_as_no_filter twoTopicStore 5
      (by decide) (by decide)).2).trans rfl

/-- Counterexample to C1 as stated: with a backend whose every response
requests a tool (`echo`, which is not registered), the claim predicts
`AgentLoopError` after `max_turns = 6` rounds, but the loop aborts on the
first round with the uncaught `ToolNotFoundError` — `_handle_tool_use`
catches only `ToolInvocationError`, and `ToolNotFoundError` is its
sibling, not a subclass. -/
theorem loopExceeded_not_raised_on_unhandled_tool :
    (startConversation.ask defaultRegistry echoBackend [] "hi"
        askDefaultMaxTurns).result
      = .error (.toolFault (.notFound "Tool 'echo' is not registered.")) ∧
    (startConversation.ask defaultRegistry echoBackend [] "hi"
        askDefaultMaxTurns).result
      ≠ .error (.loopExceeded agentLoopErrorMsg) := by
  refine ⟨rfl, fun h => ?_⟩
  have h2 : LoopErr.toolFault (.notFound "Tool 'echo' is not registered.")
      = LoopErr.loopExceeded agentLoopErrorMsg :=
    Except.error.inj
      ((rfl : (startConversation.ask defaultRegistry echoBackend [] "hi"
          askDefaultMaxTurns).result
        = .error (.toolFault
            (.notFound "Tool 'echo' is not registered."))).symm.trans h)
  exact LoopErr.noConfusion h2

/-- C1 (amended): when every one of the `max_turns` rounds both parses to
at least one tool request and has its whole dispatch complete in-band
(every requested tool is registered and no tool body raises), the loop
raises `AgentLoopError` after exactly `max_turns` request/response rounds
— all `max_turns` rounds run, each appending its assistant turn and its
tool-result turn, so the error is never raised on an earlier round — for
any `max_turns`, in particular the defaults 15 of `run` and 6 of `ask`. -/
theorem loopExceeded_after_exactly_maxTurns
    (reg : ToolRegistry) (backend : Backend) (maxTurns : Nat)
    (st : MemState) (c : Conversation) (input : String)
    (h : keepsTooling reg backend maxTurns st
      (c.messages ++ [⟨"user", .list [PyBlock.dict (textBlock
        (if c.hasPrimaryGoal then input else userWrapperFormat input))]⟩])) :
    (c.ask reg backend st input maxTurns).result
      = .error (.loopExceeded agentLoopErrorMsg) ∧
    (c.ask reg backend st input maxTurns).conv.messages.length
      = (c.messages.length + 1) + 2 * maxTurns := by
  have h' := runLoopAux_keepsTooling reg backend maxTurns st _ h
  refine ⟨h'.1, ?_⟩
  have e2 : (c.ask reg backend st input maxTurns).conv.messages
      = (runLoopAux reg backend maxTurns st
          (c.messages ++ [⟨"user", .list [PyBlock.dict (textBlock
            (if c.hasPrimaryGoal then input else userWrapperFormat input))]⟩])).msgs := rfl
  rw [e2, h'.2]
  simp

/-- Witness for C1: a backend that always requests `mistakes_search`
keeps tooling for 2 rounds; a fresh conversation with `max_turns = 2`
then fails with `AgentLoopError` having produced exactly 2 rounds
(system turn + user turn + 2 × (assistant turn + tool-result turn) = 6
messages). -/
theorem loopExceeded_after_exactly_maxTurns_witness :
    keepsTooling defaultRegistry searchBackend 2 []
      (seededMsgs "Teach me ser vs estar") ∧
    (startConversation.ask defaultRegistry searchBackend []
        "Teach me ser vs estar" 2).result
      = .error (.loopExceeded agentLoopErrorMsg) ∧
    (startConversation.ask defaultRegistry searchBackend []
        "Teach me ser vs estar" 2).conv.messages.length = 6 := by
  have hkt : keepsTooling defaultRegistry searchBackend 2 []
      (seededMsgs "Teach me ser vs estar") := by
    refine ⟨_, _, _, _, _, _, rfl, rfl, by simp, rfl, ?_⟩
    refine ⟨_, _, _, _, _, _, rfl, rfl, by simp, rfl, ?_⟩
    trivial
  have h := loopExceeded_after_exactly_maxTurns defaultRegistry searchBackend 2
    [] startConversation "Teach me ser vs estar" hkt
  exact ⟨hkt, h.1, h.2.trans rfl⟩

/-- Counterexample to C3 as stated: a request for the unregistered tool
`ghost` is a failing tool invocation, yet it is not converted into a
tool-result text — the loop aborts with the uncaught `ToolNotFoundError`
and no tool-result turn follows the assistant turn. -/
theorem unknown_tool_aborts_loop :
    (startConversation.ask defaultRegistry ghostBackend [] "hola" 6).result
      = .error (.toolFault (.notFound "Tool 'ghost' is not registered.")) ∧
    ((startConversation.ask defaultRegistry ghostBackend [] "hola" 6).conv.messages.map
        Msg.role)
      = ["system", "user", "assistant"] := ⟨rfl, rfl⟩

/-- C3 (amended): only an argument-schema validation failure
(`ToolInvocationError`) is converted in-band, into the tool-result text
`"Tool <name> failed: <message>"` with the mistake store untouched; and a
round each of whose invocations either succeeds or fails validation never
aborts the loop — it appends its results and proceeds to the next model
request.  Unknown tool names (`ToolNotFoundError`) and exceptions from
tool bodies are not converted and abort the loop. -/
theorem validation_failure_converted_in_band :
    (∀ (reg : ToolRegistry) (tu : ToolUse) (st : MemState) (m : String),
       reg.invoke tu.name tu.input st = .error (.invocation m) →
       handleToolUse reg tu st
         = .ok (st, "Tool " ++ tu.name ++ " failed: " ++ m)) ∧
    (∀ (reg : ToolRegistry) (backend : Backend) (n : Nat) (st : MemState)
       (msgs : List Msg) (sys : Option String) (req : List ReqMsg)
       (blocks : List JObj) (toolUses : List ToolUse),
       prepareAnthropicMessages msgs = .ok (sys, req) →
       parseAssistantContent (backend sys req) = .ok (blocks, toolUses) →
       toolUses ≠ [] →
       (∀ tu ∈ toolUses, ∀ s, Handled reg tu s) →
       ∃ st' results,
         dispatchTools reg toolUses st = (st', .ok results) ∧
         runLoopAux reg backend (n + 1) st msgs =
           runLoopAux reg backend n st'
             ((msgs ++ [⟨"assistant", .list (blocks.map PyBlock.dict)⟩]) ++
              [⟨"user", .list (results.map PyBlock.dict)⟩])) := by
  constructor
  · intro reg tu st m h
    simp [handleToolUse, h]
  · intro reg backend n st msgs sys req blocks toolUses hprep hparse hne hh
    obtain ⟨st', results, hdisp, _⟩ :=
      dispatchTools_ok_of_handled reg toolUses st hh
    cases toolUses with
    | nil => exact absurd rfl hne
    | cons tu rest =>
      exact ⟨st', results, hdisp,
        runLoopAux_continues reg backend n st msgs sys req blocks tu rest
          st' results hprep hparse hdisp⟩

/-- Witness for C3: a store call with no arguments fails validation and
is converted to the in-band failure text, and a round made of such a
failing call proceeds to the next model request. -/
theorem validation_failure_converted_in_band_witness :
    defaultRegistry.invoke "mistakes_store" [] []
      = .error (.invocation "topic: Field required") ∧
    handleToolUse defaultRegistry ⟨"f1", "mistakes_store", []⟩ []
      = .ok ([], "Tool mistakes_store failed: topic: Field required") ∧
    ∃ st' results,
      dispatchTools defaultRegistry [⟨"f1", "mistakes_store", []⟩] []
        = (st', .ok results) ∧
      runLoopAux defaultRegistry failStoreBackend 1 [] (seededMsgs "drill me") =
        runLoopAux defaultRegistry failStoreBackend 0 st'
          (((seededMsgs "drill me") ++
            [⟨"assistant", .list ([toolUseDict ⟨"f1", "mistakes_store", []⟩].map
                PyBlock.dict)⟩]) ++
           [⟨"user", .list (results.map PyBlock.dict)⟩]) := by
  refine ⟨rfl, ?_, ?_⟩
  · exact validation_failure_converted_in_band.1 defaultRegistry
      ⟨"f1", "mistakes_store", []⟩ [] "topic: Field required" rfl
  · exact validation_failure_converted_in_band.2 defaultRegistry
      failStoreBackend 0 [] (seededMsgs "drill me") (some SYSTEM_PROMPT)
      [⟨"user", [textBlock (userWrapperFormat "drill me")]⟩]
      [toolUseDict ⟨"f1", "mistakes_store", []⟩]
      [⟨"f1", "mistakes_store", []⟩] rfl rfl (by simp)
      (by intro tu htu s
          simp only [List.mem_singleton] at htu
          subst htu
          exact Or.inr ⟨"topic: Field required", rfl⟩)

/-- Counterexample to C4 as stated: a response carrying one tool_use for
the unregistered tool `phantom` gets no tool_result entry at all — the
loop aborts before appending the batched user turn, so not "exactly one
tool_result per request" is appended. -/
theorem no_tool_result_appended_on_unhandled_tool :
    ((startConversation.ask defaultRegistry phantomBackend [] "hey" 6).conv.messages.map
        Msg.role)
      = ["system", "user", "assistant"] ∧
    (startConversation.ask defaultRegistry phantomBackend [] "hey" 6).result
      = .error (.toolFault (.notFound "Tool 'phantom' is not registered.")) :=
  ⟨rfl, rfl⟩

/-- C4 (amended): for an assistant response with `N ≥ 1` tool requests
whose dispatch completes in-band, exactly one `tool_result` block per
request is produced (`Forall₂` pairs them positionally: same count, same
order), each carrying the `tool_use_id` of its originating request, and
all of them are batched into a single appended `role = "user"` turn
before the next model request is issued. -/
theorem tool_results_batched_one_per_request
    (reg : ToolRegistry) (backend : Backend) (n : Nat) (st : MemState)
    (msgs : List Msg) (sys : Option String) (req : List ReqMsg)
    (blocks : List JObj) (toolUses : List ToolUse)
    (hprep : prepareAnthropicMessages msgs = .ok (sys, req))
    (hparse : parseAssistantContent (backend sys req) = .ok (blocks, toolUses))
    (hne : toolUses ≠ [])
    (hh : ∀ tu ∈ toolUses, ∀ s, Handled reg tu s) :
    ∃ st' results,
      dispatchTools reg toolUses st = (st', .ok results) ∧
      List.Forall₂ (fun (tu : ToolUse) (b : JObj) =>
        jlookup b "type" = some (.str "tool_result") ∧
        jlookup b "tool_use_id" = some (.str tu.id)) toolUses results ∧
      runLoopAux reg backend (n + 1) st msgs =
        runLoopAux reg backend n st'
          ((msgs ++ [⟨"assistant", .list (blocks.map PyBlock.dict)⟩]) ++
           [⟨"user", .list (results.map PyBlock.dict)⟩]) := by
  obtain ⟨st', results, hdisp, hf⟩ :=
    dispatchTools_ok_of_handled reg toolUses st hh
  cases toolUses with
  | nil => exact absurd rfl hne
  | cons tu rest =>
    exact ⟨st', results, hdisp, hf,
      runLoopAux_continues reg backend n st msgs sys req blocks tu rest
        st' results hprep hparse hdisp⟩

/-- Witness for C4: one assistant turn with two tool requests (a store
and a search) yields two id-matched tool_result blocks batched into one
user turn before the next request. -/
theorem tool_results_batched_one_per_request_witness :
    (∀ tu ∈ duoToolUses, ∀ s : MemState, Handled defaultRegistry tu s) ∧
    ∃ st' results,
      dispatchTools defaultRegistry duoToolUses [] = (st', .ok results) ∧
      List.Forall₂ (fun (tu : ToolUse) (b : JObj) =>
        jlookup b "type" = some (.str "tool_result") ∧
        jlookup b "tool_use_id" = some (.str tu.id)) duoToolUses results ∧
      runLoopAux defaultRegistry duoBackend 1 [] (seededMsgs "quiz me") =
        runLoopAux defaultRegistry duoBackend 0 st'
          (((seededMsgs "quiz me") ++
            [⟨"assistant", .list ((duoToolUses.map toolUseDict).map PyBlock.dict)⟩]) ++
           [⟨"user", .list (results.map PyBlock.dict)⟩]) := by
  have hh : ∀ tu ∈ duoToolUses, ∀ s : MemState, Handled defaultRegistry tu s := by
    intro tu htu s
    simp only [duoToolUses, List.mem_cons, List.not_mem_nil, or_false] at htu
    rcases htu with rfl | rfl
    · exact Or.inl ⟨_, rfl⟩
    · exact Or.inl ⟨_, rfl⟩
  refine ⟨hh, ?_⟩
  exact tool_results_batched_one_per_request defaultRegistry duoBackend 0 []
    (seededMsgs "quiz me") (some SYSTEM_PROMPT)
    [⟨"user", [textBlock (userWrapperFormat "quiz me")]⟩]
    (duoToolUses.map toolUseDict) duoToolUses rfl rfl (by simp [duoToolUses]) hh

/-- Counterexample to C6 as stated: with no matches the tool returns the
literal `"No mistakes found."`, not the claimed literal
`"no mistakes found"`. -/
theorem sentinel_text_is_capitalized :
    defaultRegistry.invoke "mistakes_search"
        [("topic", .str "ser/estar"), ("limit", .int 5)] []
      = .ok ([], "No mistakes found.") ∧
    "No mistakes found." ≠ "no mistakes found" :=
  ⟨rfl, by decide⟩

/-- C6 (amended, sentinel spelled as the code spells it): for every store
and valid invocation (topic optional, limit in 1–20), the search returns
the records matching the topic filter, rendered `"- topic: detail"` and
newline-joined, truncated to the first `limit` matches in insertion order
(most recently stored last); with no matches it returns the sentinel
`"No mistakes found."`; and omitting `limit` defaults it to 5. -/
theorem mistakes_search_results_and_sentinel
    (st : MemState) (topic : Option String) (l : Int)
    (h1 : 1 ≤ l) (h2 : l ≤ 20) :
    defaultRegistry.invoke "mistakes_search"
        (searchTopicArgs topic ++ [("limit", JVal.int l)]) st
      = .ok (st, mistakesSearchRun topic l st) ∧
    (searchHits topic st = [] →
      mistakesSearchRun topic l st = "No mistakes found.") ∧
    (searchHits topic st ≠ [] →
      mistakesSearchRun topic l st
        = String.intercalate "\n"
            (((searchHits topic st).take l.toNat).map
              (fun r => "- " ++ r.topic ++ ": " ++ r.detail))) ∧
    defaultRegistry.invoke "mistakes_search" (searchTopicArgs topic) st
      = .ok (st, mistakesSearchRun topic 5 st) := by
  refine ⟨search_invoke_eq st topic l h1 h2, ?_, ?_, search_invoke_default st topic⟩
  · intro hempty
    simp [mistakesSearchRun, hempty]
  · intro hne
    obtain ⟨x, xs, hx⟩ := List.exists_cons_of_ne_nil hne
    obtain ⟨k, hk⟩ : ∃ k, l.toNat = k + 1 := ⟨l.toNat - 1, by omega⟩
    simp only [mistakesSearchRun, hx, hk, List.take_succ_cons, List.map_cons,
      List.isEmpty_cons, Bool.false_eq_true, if_false]

/-- Witness for C6: the spec's example — store the ser/estar mistake into
an empty store, then search topic `"ser/estar"` with limit 5 — yields the
single line `"- ser/estar: confuses ser and estar for location"`. -/
theorem mistakes_search_results_and_sentinel_witness :
    (1 : Int) ≤ 5 ∧ (5 : Int) ≤ 20 ∧
    defaultRegistry.invoke "mistakes_store"
        [("topic", .str "ser/estar"),
         ("detail", .str "confuses ser and estar for location")] []
      = .ok (serEstarStore, "Stored mistake for topic 'ser/estar'.") ∧
    defaultRegistry.invoke "mistakes_search"
        [("topic", .str "ser/estar"), ("limit", .int 5)] serEstarStore
      = .ok (serEstarStore, "- ser/estar: confuses ser and estar for location") := by
  refine ⟨by decide, by decide, rfl, ?_⟩
  have h := (mistakes_search_results_and_sentinel serEstarStore
    (some "ser/estar") 5 (by decide) (by decide)).1
  simp only [searchTopicArgs, List.cons_append, List.nil_append] at h
  exact h.trans rfl

/-- Counterexample to C10 as stated: an attribute-style block with
`type = "tool_use"` but no `id` attribute makes
`_normalize_content_blocks` fault (the bare `getattr(block, "id")`
raises `AttributeError`), so normalization is not total. -/
theorem normalize_content_blocks_faults_on_bare_getattr :
    normalizeContentBlocks
        (.list [.attr ⟨some "tool_use", none, none, none, none, none, none,
          none, "ToolUseBlock"⟩])
      = .error "AttributeError" := rfl

/-- C10 (amended): on every content value whose attribute-style blocks
carry the attributes their type makes the code read with a bare
`getattr` (`id`/`name` for `tool_use`, `tool_use_id` for `tool_result`),
normalization returns without faulting a non-empty list of dict blocks;
the result is the single fallback block
`[{"type": "text", "text": str(content)}]` exactly when the input is not
a list or is a list whose pass keeps no block (dict blocks are kept
verbatim whatever their shape; attribute-style blocks are kept only when
their type is text/tool_use/tool_result). -/
theorem normalize_content_blocks_total_on_wellformed
    (c : PyContent) (hwf : ContentWF c) :
    ∃ out, normalizeContentBlocks c = .ok out ∧ out ≠ [] ∧
      (∀ bs, c = .list bs →
        (keptBlocks bs = [] → out = [textBlock (pyStr c)]) ∧
        (keptBlocks bs ≠ [] → out = keptBlocks bs)) ∧
      ((∀ bs, c ≠ .list bs) → out = [textBlock (pyStr c)]) := by
  cases c with
  | str s =>
      refine ⟨[textBlock (pyStr (.str s))], rfl, by simp, ?_, fun _ => rfl⟩
      intro bs h
      simp at h
  | other r =>
      refine ⟨[textBlock (pyStr (.other r))], rfl, by simp, ?_, fun _ => rfl⟩
      intro bs h
      simp at h
  | list bs =>
    obtain ⟨opts, haux, hkept⟩ := normalizeBlocksAux_ok bs hwf
    by_cases hemp : keptBlocks bs = []
    · refine ⟨[textBlock (pyStr (.list bs))], ?_, by simp, ?_, ?_⟩
      · simp [normalizeContentBlocks, haux, hkept, hemp]
      · intro bs' h
        cases h
        exact ⟨fun _ => rfl, fun hne => absurd hemp hne⟩
      · intro hnl
        exact absurd rfl (hnl bs)
    · refine ⟨keptBlocks bs, ?_, hemp, ?_, ?_⟩
      · simp [normalizeContentBlocks, haux, hkept, hemp,
          List.isEmpty_iff]
      · intro bs' h
        cases h
        exact ⟨fun he => absurd he hemp, fun _ => rfl⟩
      · intro hnl
        exact absurd rfl (hnl bs)

/-- Witness for C10: a list holding one well-formed attribute-style text
block normalizes without faulting to that block alone. -/
theorem normalize_content_blocks_total_on_wellformed_witness :
    ContentWF (.list [.attr (ABlock.textBlk "hey")]) ∧
    ∃ out, normalizeContentBlocks (.list [.attr (ABlock.textBlk "hey")])
        = .ok out ∧ out ≠ [] ∧
      (∀ bs, PyContent.list [.attr (ABlock.textBlk "hey")] = .list bs →
        (keptBlocks bs = [] →
          out = [textBlock (pyStr (.list [.attr (ABlock.textBlk "hey")]))]) ∧
        (keptBlocks bs ≠ [] → out = keptBlocks bs)) ∧
      ((∀ bs, PyContent.list [.attr (ABlock.textBlk "hey")] ≠ .list bs) →
        out = [textBlock (pyStr (.list [.attr (ABlock.textBlk "hey")]))]) := by
  have hwf : ContentWF (.list [.attr (ABlock.textBlk "hey")]) := by
    show ∀ b ∈ [PyBlock.attr (ABlock.textBlk "hey")], PyBlockWF b
    intro b hb
    simp only [List.mem_singleton] at hb
    subst hb
    exact ⟨fun h => by simp [ABlock.textBlk] at h,
           fun h => by simp [ABlock.textBlk] at h⟩
  exact ⟨hwf, normalize_content_blocks_total_on_wellformed _ hwf⟩

end EduAgent
